import Mathlib

/-
Verification of the date-comparison filter plugin
(src/plugins/filters/schedule_utils.py) against its specification.

The whole module is stateless except for its read of the system clock
(`datetime.today()`).  All claims are stated "at a fixed clock instant",
so the clock is modelled as an explicit parameter `today : DateTime`
threaded through every function; each Python read of `datetime.today()`
becomes a use of that parameter.

Python exceptions are modelled with `Except PyError`:
  * `dict[key]` on a missing key   -> `PyError.keyError key`
  * `datetime.strptime` rejection  -> `PyError.valueError`
  * ordering a date against a datetime -> `PyError.typeError`
-/

namespace ScheduleUtils

/-- A Python `datetime.date`: a calendar date (year, month, day). -/
structure Date where
  year : Nat
  month : Nat
  day : Nat
deriving DecidableEq, Repr

/-- A Python `datetime.datetime`: calendar date plus time of day,
including the microsecond component (`datetime.today()` returns one). -/
structure DateTime where
  year : Nat
  month : Nat
  day : Nat
  hour : Nat
  minute : Nat
  second : Nat
  microsecond : Nat
deriving DecidableEq, Repr

/-- Python `datetime.date()`: drop the time-of-day components. -/
def DateTime.date (t : DateTime) : Date :=
  ⟨t.year, t.month, t.day⟩

/-- Python `datetime.replace(microsecond=0)`. -/
def DateTime.truncMicro (t : DateTime) : DateTime :=
  { t with microsecond := 0 }

/-- The exceptions the plugin can raise. -/
inductive PyError where
  /-- `KeyError` from a dict lookup on a missing key. -/
  | keyError (key : String)
  /-- `ValueError` from `datetime.strptime` on data that matches the
  format shape but not a real date/time. -/
  | valueError
  /-- `TypeError` from ordering a `date` against a `datetime`. -/
  | typeError
deriving DecidableEq, Repr

/-- A value stored in the dict returned by `get_dates`: either a
`date` or a `datetime` (Python is dynamically typed, so the dict can
hold either). -/
inductive TemporalValue where
  | d (x : Date)
  | dt (x : DateTime)
deriving DecidableEq, Repr

/-- Three-way comparison on `Nat`, the building block for CPython's
`date._cmp` / `datetime._cmp`. -/
def natCmp (a b : Nat) : Ordering :=
  if a < b then .lt else if b < a then .gt else .eq

/-- CPython `date._cmp`: lexicographic on (year, month, day). -/
def dateCmp (a b : Date) : Ordering :=
  (natCmp a.year b.year).then ((natCmp a.month b.month).then (natCmp a.day b.day))

/-- CPython `datetime._cmp`: lexicographic on all seven components
(microsecond included). -/
def dtCmp (a b : DateTime) : Ordering :=
  (natCmp a.year b.year).then ((natCmp a.month b.month).then
    ((natCmp a.day b.day).then ((natCmp a.hour b.hour).then
      ((natCmp a.minute b.minute).then ((natCmp a.second b.second).then
        (natCmp a.microsecond b.microsecond))))))

/-- Three-way comparison of two temporal values; `none` when the two
variants differ (Python raises `TypeError` when ordering a `date`
against a `datetime`). -/
def tvCmp : TemporalValue → TemporalValue → Option Ordering
  | .d a, .d b => some (dateCmp a b)
  | .dt a, .dt b => some (dtCmp a b)
  | _, _ => none

/-- Python `a < b` on temporal values. -/
def pyLt (a b : TemporalValue) : Except PyError Bool :=
  match tvCmp a b with
  | none => .error .typeError
  | some o => .ok (o == .lt)

/-- Python `a > b` on temporal values. -/
def pyGt (a b : TemporalValue) : Except PyError Bool :=
  match tvCmp a b with
  | none => .error .typeError
  | some o => .ok (o == .gt)

/-- Python `a <= b` on temporal values. -/
def pyLe (a b : TemporalValue) : Except PyError Bool :=
  match tvCmp a b with
  | none => .error .typeError
  | some o => .ok (!(o == .gt))

/-- Python `a >= b` on temporal values. -/
def pyGe (a b : TemporalValue) : Except PyError Bool :=
  match tvCmp a b with
  | none => .error .typeError
  | some o => .ok (!(o == .lt))

/-- Python `a == b` on temporal values: mixed date/datetime operands
compare unequal rather than raising. -/
def pyEq (a b : TemporalValue) : Except PyError Bool :=
  match tvCmp a b with
  | none => .ok false
  | some o => .ok (o == .eq)

/-- Python `a != b` on temporal values. -/
def pyNe (a b : TemporalValue) : Except PyError Bool :=
  match tvCmp a b with
  | none => .ok true
  | some o => .ok (!(o == .eq))

/-- One token of one of the three regular expressions: `\d` or a
literal character.  (Python's `\d` also accepts non-ASCII Unicode
digits; all inputs the claims range over are ASCII, and `strptime`
re-validates digits itself, so `Char.isDigit` is used throughout.) -/
inductive Tok where
  | digit
  | lit (c : Char)

/-- Python's `$` anchor: it accepts either the true end of the string
or a position just before a single trailing newline. -/
def endOk : List Char → Bool
  | [] => true
  | c :: rest => c == '\n' && rest.isEmpty

/-- `re.match(r"^<toks>$", s)`: the tokens must consume the string from
the start, then the `$` anchor must accept the rest. -/
def matchToks : List Tok → List Char → Bool
  | [], rest => endOk rest
  | Tok.digit :: ts, c :: cs => c.isDigit && matchToks ts cs
  | Tok.lit l :: ts, c :: cs => c == l && matchToks ts cs
  | _ :: _, [] => false

/-- The pattern `^\d{4}-\d{2}\-\d{2}$`. -/
def pat1 : List Tok :=
  [.digit, .digit, .digit, .digit, .lit '-', .digit, .digit, .lit '-', .digit, .digit]

/-- The patterns `^\d{4}-\d{2}\-\d{2}<sep>\d{2}:\d{2}:\d{2}$` with
`sep` being `T` (pattern 2) or a space (pattern 3). -/
def patTS (sep : Char) : List Tok :=
  [.digit, .digit, .digit, .digit, .lit '-', .digit, .digit, .lit '-', .digit, .digit,
   .lit sep, .digit, .digit, .lit ':', .digit, .digit, .lit ':', .digit, .digit]

/-- Numeric value of two digit characters. -/
def toNum2 (a b : Char) : Nat :=
  10 * (a.toNat - 48) + (b.toNat - 48)

/-- Numeric value of four digit characters. -/
def toNum4 (a b c d : Char) : Nat :=
  1000 * (a.toNat - 48) + 100 * (b.toNat - 48) + 10 * (c.toNat - 48) + (d.toNat - 48)

/-- Gregorian leap-year rule, as used by Python's `datetime`. -/
def isLeap (y : Nat) : Bool :=
  y % 4 == 0 && (y % 100 != 0 || y % 400 == 0)

/-- Day count of a month, as used by Python's `datetime`. -/
def daysInMonth (y m : Nat) : Nat :=
  if m == 2 then (if isLeap y then 29 else 28)
  else if m == 4 || m == 6 || m == 9 || m == 11 then 30
  else 31

/-- The calendar validation `datetime.strptime` performs beyond the
shape of the format string: month 1..12, day within the month, year at
least `MINYEAR` (1; four digit characters already cap it at 9999). -/
def validDate (y m d : Nat) : Bool :=
  1 ≤ y && 1 ≤ m && m ≤ 12 && 1 ≤ d && d ≤ daysInMonth y m

/-- The time-of-day validation `datetime.strptime` performs: hour
0..23, minute 0..59, second 0..59 (a parsed leap second 60/61 is
rejected by the `datetime` constructor). -/
def validTime (h mi s : Nat) : Bool :=
  h ≤ 23 && mi ≤ 59 && s ≤ 59

/-- `datetime.strptime(s, "%Y-%m-%d").date()`: `none` models the
`ValueError` raised on data that does not fit.  Every call site has
already matched the input against `pat1`, so only exactly-shaped
strings (possibly with the trailing newline admitted by `$`, which
`strptime` then rejects as unconverted data) ever reach this. -/
def parseYmd : List Char → Option Date
  | [y1, y2, y3, y4, '-', m1, m2, '-', d1, d2] =>
    if y1.isDigit && y2.isDigit && y3.isDigit && y4.isDigit &&
       m1.isDigit && m2.isDigit && d1.isDigit && d2.isDigit then
      if validDate (toNum4 y1 y2 y3 y4) (toNum2 m1 m2) (toNum2 d1 d2) then
        some ⟨toNum4 y1 y2 y3 y4, toNum2 m1 m2, toNum2 d1 d2⟩
      else none
    else none
  | _ => none

/-- `datetime.strptime(s, "%Y-%m-%d<sep>%H:%M:%S")` with `sep` being
`T` or a space: the two formats of the source differ only in that
separator.  The format carries no fractional part, so the parsed
datetime has microsecond 0. -/
def parseYmdHMS (sep : Char) : List Char → Option DateTime
  | [y1, y2, y3, y4, '-', m1, m2, '-', d1, d2, c, h1, h2, ':', n1, n2, ':', s1, s2] =>
    if c == sep &&
       y1.isDigit && y2.isDigit && y3.isDigit && y4.isDigit &&
       m1.isDigit && m2.isDigit && d1.isDigit && d2.isDigit &&
       h1.isDigit && h2.isDigit && n1.isDigit && n2.isDigit &&
       s1.isDigit && s2.isDigit then
      if validDate (toNum4 y1 y2 y3 y4) (toNum2 m1 m2) (toNum2 d1 d2) &&
         validTime (toNum2 h1 h2) (toNum2 n1 n2) (toNum2 s1 s2) then
        some ⟨toNum4 y1 y2 y3 y4, toNum2 m1 m2, toNum2 d1 d2,
          toNum2 h1 h2, toNum2 n1 n2, toNum2 s1 s2, 0⟩
      else none
    else none
  | _ => none

/-- The dict built by `get_dates`.  Each of the three pattern branches
assigns `now_date` and `check_date` together, so the dict is either
empty (`none`) or holds both keys (`some (now_date, check_date)`). -/
abbrev Dates := Option (TemporalValue × TemporalValue)

instance {ε α : Type} [DecidableEq ε] [DecidableEq α] : DecidableEq (Except ε α)
  | .error a, .error b =>
    if h : a = b then .isTrue (by rw [h])
    else .isFalse (by intro hc; cases hc; exact h rfl)
  | .error _, .ok _ => .isFalse (by intro hc; cases hc)
  | .ok _, .error _ => .isFalse (by intro hc; cases hc)
  | .ok a, .ok b =>
    if h : a = b then .isTrue (by rw [h])
    else .isFalse (by intro hc; cases hc; exact h rfl)

/-- `dict["now_date"]`. -/
def getNow : Dates → Except PyError TemporalValue
  | none => .error (.keyError ("now_date"))
  | some (n, _) => .ok n

/-- `dict["check_date"]`. -/
def getCheck : Dates → Except PyError TemporalValue
  | none => .error (.keyError ("check_date"))
  | some (_, c) => .ok c

/-- `FilterModule.get_dates`, on the character list of the input.  The
three `if re.match(...)` blocks run in sequence (not `elif`); a later
match overwrites the dict, and a `strptime` `ValueError` aborts the
whole call. -/
def get_datesL (today : DateTime) (cs : List Char) : Except PyError Dates :=
  let dates : Dates := none
  match (if matchToks pat1 cs then
           match parseYmd cs with
           | none => Except.error PyError.valueError
           | some c =>
             Except.ok (some (TemporalValue.d today.date, TemporalValue.d c))
         else Except.ok dates) with
  | Except.error e => Except.error e
  | Except.ok dates =>
    match (if matchToks (patTS 'T') cs then
             match parseYmdHMS 'T' cs with
             | none => Except.error PyError.valueError
             | some c =>
               Except.ok (some (TemporalValue.dt today.truncMicro, TemporalValue.dt c))
           else Except.ok dates) with
    | Except.error e => Except.error e
    | Except.ok dates =>
      if matchToks (patTS ' ') cs then
        match parseYmdHMS ' ' cs with
        | none => Except.error PyError.valueError
        | some c =>
          Except.ok (some (TemporalValue.dt today.truncMicro, TemporalValue.dt c))
      else Except.ok dates

/-- `FilterModule.get_dates` on the input string. -/
def get_dates (today : DateTime) (datestring : String) : Except PyError Dates :=
  get_datesL today datestring.toList

/-- The resolution sequence every predicate performs verbatim:
`check_date = self.get_dates(datestring)["check_date"]` followed by
`now_date = self.get_dates(datestring)["now_date"]` (two separate
`get_dates` calls, `check_date` looked up first).  Returns
`(check_date, now_date)`. -/
def resolvePair (today : DateTime) (datestring : String) :
    Except PyError (TemporalValue × TemporalValue) :=
  match get_dates today datestring with
  | .error e => .error e
  | .ok d1 =>
    match getCheck d1 with
    | .error e => .error e
    | .ok check_date =>
      match get_dates today datestring with
      | .error e => .error e
      | .ok d2 =>
        match getNow d2 with
        | .error e => .error e
        | .ok now_date => .ok (check_date, now_date)

/-- The `if not date_operator: date_operator = "=="` default: `None`
(absent argument) and the empty string are the falsy strings. -/
def resolveOp : Option String → String
  | none => "=="
  | some s => if s == ("") then "==" else s

/-- The `ops` dict lookup followed by the call
`ops[date_operator](now_date, check_date)`: a miss raises
`KeyError(date_operator)`. -/
def applyOp (date_operator : String) (now_date check_date : TemporalValue) :
    Except PyError Bool :=
  if date_operator == ("==") then pyEq now_date check_date
  else if date_operator == (">") then pyGt now_date check_date
  else if date_operator == (">=") then pyGe now_date check_date
  else if date_operator == ("<=") then pyLe now_date check_date
  else if date_operator == ("<") then pyLt now_date check_date
  else if date_operator == ("!=") then pyNe now_date check_date
  else .error (.keyError date_operator)

/-- `FilterModule.is_due`: note the argument order `op(now, check)`. -/
def is_due (today : DateTime) (datestring : String)
    (date_operator : Option String) : Except PyError Bool :=
  match resolvePair today datestring with
  | .error e => .error e
  | .ok (check_date, now_date) =>
    applyOp (resolveOp date_operator) now_date check_date

/-- `FilterModule.is_past`: `check_date < now_date`. -/
def is_past (today : DateTime) (datestring : String) : Except PyError Bool :=
  match resolvePair today datestring with
  | .error e => .error e
  | .ok (check_date, now_date) => pyLt check_date now_date

/-- `FilterModule.is_today_or_past`: `check_date <= now_date`. -/
def is_today_or_past (today : DateTime) (datestring : String) : Except PyError Bool :=
  match resolvePair today datestring with
  | .error e => .error e
  | .ok (check_date, now_date) => pyLe check_date now_date

/-- `FilterModule.is_future`: `check_date > now_date`. -/
def is_future (today : DateTime) (datestring : String) : Except PyError Bool :=
  match resolvePair today datestring with
  | .error e => .error e
  | .ok (check_date, now_date) => pyGt check_date now_date

/-- `FilterModule.is_today_or_future`: `check_date >= now_date`. -/
def is_today_or_future (today : DateTime) (datestring : String) : Except PyError Bool :=
  match resolvePair today datestring with
  | .error e => .error e
  | .ok (check_date, now_date) => pyGe check_date now_date

/-- `FilterModule.is_today`: `check_date == now_date`. -/
def is_today (today : DateTime) (datestring : String) : Except PyError Bool :=
  match resolvePair today datestring with
  | .error e => .error e
  | .ok (check_date, now_date) => pyEq check_date now_date

/-- A value of the registration dict: one of the plugin's bound
methods, which take either just the date string or the date string and
an optional operator. -/
inductive Callable where
  | unary (f : DateTime → String → Except PyError Bool)
  | withOp (f : DateTime → String → Option String → Except PyError Bool)

/-- `FilterModule.filters`: the registration dict, in source order. -/
def filters : List (String × Callable) :=
  [("is_due", .withOp fun t s op => is_due t s op),
   ("is_future", .unary is_future),
   ("is_past", .unary is_past),
   ("is_today_or_future", .unary is_today_or_future),
   ("is_today_or_past", .unary is_today_or_past),
   ("is_today", .unary is_today)]

/-- A fixed clock instant used to instantiate witnesses: local time
2030-06-15 12:30:45.123456. -/
def sampleNow : DateTime :=
  ⟨2030, 6, 15, 12, 30, 45, 123456⟩

theorem then_swap (o1 o2 : Ordering) :
    (o1.then o2).swap = o1.swap.then o2.swap := by
  cases o1 <;> cases o2 <;> rfl

theorem then_eq_eq (o1 o2 : Ordering) :
    o1.then o2 = .eq ↔ o1 = .eq ∧ o2 = .eq := by
  cases o1 <;> cases o2 <;> simp [Ordering.then]

theorem natCmp_swap (a b : Nat) : natCmp a b = (natCmp b a).swap := by
  unfold natCmp
  split_ifs <;> first | rfl | (exfalso; omega)

theorem natCmp_eq_eq (a b : Nat) : natCmp a b = .eq ↔ a = b := by
  unfold natCmp
  split_ifs <;> simp <;> omega

theorem dateCmp_swap (a b : Date) : dateCmp a b = (dateCmp b a).swap := by
  unfold dateCmp
  rw [then_swap, then_swap, ← natCmp_swap, ← natCmp_swap, ← natCmp_swap]

theorem dateCmp_eq_eq (a b : Date) : dateCmp a b = .eq ↔ a = b := by
  obtain ⟨ya, ma, da⟩ := a
  obtain ⟨yb, mb, db⟩ := b
  simp [dateCmp, then_eq_eq, natCmp_eq_eq, Date.mk.injEq, and_assoc]

theorem dtCmp_swap (a b : DateTime) : dtCmp a b = (dtCmp b a).swap := by
  unfold dtCmp
  rw [then_swap, then_swap, then_swap, then_swap, then_swap, then_swap,
    ← natCmp_swap, ← natCmp_swap, ← natCmp_swap, ← natCmp_swap,
    ← natCmp_swap, ← natCmp_swap, ← natCmp_swap]

theorem dtCmp_eq_eq (a b : DateTime) : dtCmp a b = .eq ↔ a = b := by
  obtain ⟨ya, ma, da, ha, na, sa, ua⟩ := a
  obtain ⟨yb, mb, db, hb, nb, sb, ub⟩ := b
  simp [dtCmp, then_eq_eq, natCmp_eq_eq, DateTime.mk.injEq, and_assoc]

theorem tvCmp_swap (a b : TemporalValue) :
    tvCmp a b = (tvCmp b a).map Ordering.swap := by
  cases a <;> cases b <;> simp only [tvCmp, Option.map] <;>
    first
      | rfl
      | exact congrArg some (dateCmp_swap _ _)
      | exact congrArg some (dtCmp_swap _ _)

theorem pyEq_symm (a b : TemporalValue) : pyEq a b = pyEq b a := by
  unfold pyEq
  rw [tvCmp_swap]
  cases tvCmp b a with
  | none => rfl
  | some o => cases o <;> rfl

theorem pyGt_swap (a b : TemporalValue) : pyGt a b = pyLt b a := by
  unfold pyGt pyLt
  rw [tvCmp_swap]
  cases tvCmp b a with
  | none => rfl
  | some o => cases o <;> rfl

theorem pyLt_swap (a b : TemporalValue) : pyLt a b = pyGt b a := by
  rw [← pyGt_swap]

theorem pyGe_swap (a b : TemporalValue) : pyGe a b = pyLe b a := by
  unfold pyGe pyLe
  rw [tvCmp_swap]
  cases tvCmp b a with
  | none => rfl
  | some o => cases o <;> rfl

theorem pyLe_swap (a b : TemporalValue) : pyLe a b = pyGe b a := by
  rw [← pyGe_swap]

theorem pyNe_eq_not_pyEq (a b : TemporalValue) :
    pyNe a b = Except.map (fun x => !x) (pyEq b a) := by
  unfold pyNe pyEq
  rw [tvCmp_swap]
  cases tvCmp b a with
  | none => rfl
  | some o => cases o <;> rfl

theorem parseYmd_inv (cs : List Char) (c : Date) (h : parseYmd cs = some c) :
    matchToks pat1 cs = true ∧ matchToks (patTS 'T') cs = false ∧
      matchToks (patTS ' ') cs = false := by
  unfold parseYmd at h
  split at h
  next y1 y2 y3 y4 m1 m2 d1 d2 =>
    split_ifs at h with hdig hval
    · simp only [Bool.and_eq_true] at hdig
      obtain ⟨⟨⟨⟨⟨⟨⟨h1, h2⟩, h3⟩, h4⟩, h5⟩, h6⟩, h7⟩, h8⟩ := hdig
      refine ⟨?_, ?_, ?_⟩ <;>
        simp [matchToks, pat1, patTS, endOk, h1, h2, h3, h4, h5, h6, h7, h8]
  next => exact absurd h (by simp)

theorem parseYmdHMS_T_inv (cs : List Char) (t : DateTime)
    (h : parseYmdHMS 'T' cs = some t) :
    matchToks pat1 cs = false ∧ matchToks (patTS 'T') cs = true ∧
      matchToks (patTS ' ') cs = false := by
  unfold parseYmdHMS at h
  split at h
  next y1 y2 y3 y4 m1 m2 d1 d2 c h1 h2 n1 n2 s1 s2 =>
    split_ifs at h with hc hval
    · simp only [Bool.and_eq_true] at hc
      obtain ⟨⟨⟨⟨⟨⟨⟨⟨⟨⟨⟨⟨⟨⟨hsep, hy1⟩, hy2⟩, hy3⟩, hy4⟩, hm1⟩, hm2⟩,
        hd1⟩, hd2⟩, hh1⟩, hh2⟩, hn1⟩, hn2⟩, hs1⟩, hs2⟩ := hc
      rw [beq_iff_eq] at hsep
      subst hsep
      refine ⟨?_, ?_, ?_⟩ <;>
        simp [matchToks, pat1, patTS, endOk, hy1, hy2, hy3, hy4, hm1, hm2,
          hd1, hd2, hh1, hh2, hn1, hn2, hs1, hs2,
          show (('T' : Char) == ' ') = false by decide]
  next => exact absurd h (by simp)

theorem parseYmdHMS_Sp_inv (cs : List Char) (t : DateTime)
    (h : parseYmdHMS ' ' cs = some t) :
    matchToks pat1 cs = false ∧ matchToks (patTS 'T') cs = false ∧
      matchToks (patTS ' ') cs = true := by
  unfold parseYmdHMS at h
  split at h
  next y1 y2 y3 y4 m1 m2 d1 d2 c h1 h2 n1 n2 s1 s2 =>
    split_ifs at h with hc hval
    · simp only [Bool.and_eq_true] at hc
      obtain ⟨⟨⟨⟨⟨⟨⟨⟨⟨⟨⟨⟨⟨⟨hsep, hy1⟩, hy2⟩, hy3⟩, hy4⟩, hm1⟩, hm2⟩,
        hd1⟩, hd2⟩, hh1⟩, hh2⟩, hn1⟩, hn2⟩, hs1⟩, hs2⟩ := hc
      rw [beq_iff_eq] at hsep
      subst hsep
      refine ⟨?_, ?_, ?_⟩ <;>
        simp [matchToks, pat1, patTS, endOk, hy1, hy2, hy3, hy4, hm1, hm2,
          hd1, hd2, hh1, hh2, hn1, hn2, hs1, hs2,
          show ((' ' : Char) == 'T') = false by decide]
  next => exact absurd h (by simp)

theorem parseYmdHMS_micro (sep : Char) (cs : List Char) (t : DateTime)
    (h : parseYmdHMS sep cs = some t) : t.microsecond = 0 := by
  unfold parseYmdHMS at h
  split at h
  next y1 y2 y3 y4 m1 m2 d1 d2 c h1 h2 n1 n2 s1 s2 =>
    split_ifs at h with hc hval
    · simp only [Option.some.injEq] at h
      subst h
      rfl
  next => exact absurd h (by simp)

theorem get_datesL_of_parseYmd (today : DateTime) (cs : List Char) (c : Date)
    (h : parseYmd cs = some c) :
    get_datesL today cs = .ok (some (.d today.date, .d c)) := by
  obtain ⟨h1, h2, h3⟩ := parseYmd_inv cs c h
  unfold get_datesL
  simp [h1, h2, h3, h]

theorem get_datesL_of_parseT (today : DateTime) (cs : List Char) (t : DateTime)
    (h : parseYmdHMS 'T' cs = some t) :
    get_datesL today cs = .ok (some (.dt today.truncMicro, .dt t)) := by
  obtain ⟨h1, h2, h3⟩ := parseYmdHMS_T_inv cs t h
  unfold get_datesL
  simp [h1, h2, h3, h]

theorem get_datesL_of_parseSp (today : DateTime) (cs : List Char) (t : DateTime)
    (h : parseYmdHMS ' ' cs = some t) :
    get_datesL today cs = .ok (some (.dt today.truncMicro, .dt t)) := by
  obtain ⟨h1, h2, h3⟩ := parseYmdHMS_Sp_inv cs t h
  unfold get_datesL
  simp [h1, h2, h3, h]

theorem get_datesL_of_unmatched (today : DateTime) (cs : List Char)
    (h1 : matchToks pat1 cs = false) (h2 : matchToks (patTS 'T') cs = false)
    (h3 : matchToks (patTS ' ') cs = false) :
    get_datesL today cs = .ok none := by
  unfold get_datesL
  simp [h1, h2, h3]

theorem resolvePair_of_pair (today : DateTime) (s : String)
    (n c : TemporalValue) (h : get_dates today s = .ok (some (n, c))) :
    resolvePair today s = .ok (c, n) := by
  unfold resolvePair
  rw [h]
  rfl

theorem resolvePair_of_empty (today : DateTime) (s : String)
    (h : get_dates today s = .ok none) :
    resolvePair today s = .error (.keyError ("check_date")) := by
  unfold resolvePair
  rw [h]
  rfl

theorem resolvePair_of_error (today : DateTime) (s : String) (e : PyError)
    (h : get_dates today s = .error e) :
    resolvePair today s = .error e := by
  unfold resolvePair
  rw [h]

theorem get_datesL_shape (today : DateTime) (cs : List Char)
    (n c : TemporalValue) (h : get_datesL today cs = .ok (some (n, c))) :
    (n = .d today.date ∧ ∃ x, c = .d x) ∨
      (n = .dt today.truncMicro ∧ ∃ x, c = .dt x ∧ x.microsecond = 0) := by
  unfold get_datesL at h
  cases hm1 : matchToks pat1 cs <;>
    cases hm2 : matchToks (patTS 'T') cs <;>
      cases hm3 : matchToks (patTS ' ') cs <;>
        simp only [hm1, hm2, hm3, Bool.false_eq_true, if_false, if_true] at h
  all_goals try (cases hp1 : parseYmd cs <;> simp only [hp1] at h)
  all_goals try (cases hp2 : parseYmdHMS 'T' cs <;> simp only [hp2] at h)
  all_goals try (cases hp3 : parseYmdHMS ' ' cs <;> simp only [hp3] at h)
  all_goals simp only [Except.ok.injEq, Option.some.injEq, Prod.mk.injEq,
    reduceCtorEq] at h
  all_goals obtain ⟨hn, hc⟩ := h
  all_goals subst hn
  all_goals subst hc
  all_goals
    first
      | exact Or.inl ⟨rfl, _, rfl⟩
      | exact Or.inr ⟨rfl, _, rfl, parseYmdHMS_micro 'T' cs _ hp2⟩
      | exact Or.inr ⟨rfl, _, rfl, parseYmdHMS_micro ' ' cs _ hp3⟩

theorem get_dates_cmp_defined (today : DateTime) (s : String)
    (n c : TemporalValue) (h : get_dates today s = .ok (some (n, c))) :
    (∃ o, tvCmp c n = some o) ∧ (∃ o, tvCmp n c = some o) := by
  rcases get_datesL_shape today s.toList n c h with ⟨hn, x, hc⟩ | ⟨hn, x, hc, _⟩ <;>
    subst hn <;> subst hc <;> exact ⟨⟨_, rfl⟩, ⟨_, rfl⟩⟩

theorem resolvePair_of_parseYmd (today : DateTime) (s : String) (c : Date)
    (h : parseYmd s.toList = some c) :
    resolvePair today s = .ok (.d c, .d today.date) :=
  resolvePair_of_pair today s _ _ (get_datesL_of_parseYmd today s.toList c h)

theorem is_due_resolveOp_eq (today : DateTime) (s : String) (o : Option String)
    (h : resolveOp o = "==") : is_due today s o = is_today today s := by
  unfold is_due is_today
  rw [h]
  cases hr : resolvePair today s with
  | error e => rfl
  | ok p =>
    obtain ⟨cd, nd⟩ := p
    exact pyEq_symm nd cd

/-- C1: at a fixed clock instant, `is_due` applies its operator as
`operator(now, check)`: `is_due(d, "==")` equals `is_today(d)`,
`is_due(d, ">")` equals `is_past(d)`, `is_due(d, "<")` equals
`is_future(d)`, `is_due(d, ">=")` equals `is_today_or_past(d)`,
`is_due(d, "<=")` equals `is_today_or_future(d)`, and `is_due(d, "!=")`
equals the negation of `is_today(d)`.  Proved for every input string
(valid ones included): on invalid input both sides fail identically. -/
theorem is_due_operator_table_agrees (today : DateTime) (s : String) :
    is_due today s (some ("==")) = is_today today s ∧
    is_due today s (some (">")) = is_past today s ∧
    is_due today s (some ("<")) = is_future today s ∧
    is_due today s (some (">=")) = is_today_or_past today s ∧
    is_due today s (some ("<=")) = is_today_or_future today s ∧
    is_due today s (some ("!=")) = Except.map (fun b => !b) (is_today today s) := by
  refine ⟨is_due_resolveOp_eq today s (some ("==")) rfl, ?_, ?_, ?_, ?_, ?_⟩
  · unfold is_due is_past
    cases hr : resolvePair today s with
    | error e => rfl
    | ok p =>
      obtain ⟨cd, nd⟩ := p
      exact pyGt_swap nd cd
  · unfold is_due is_future
    cases hr : resolvePair today s with
    | error e => rfl
    | ok p =>
      obtain ⟨cd, nd⟩ := p
      exact pyLt_swap nd cd
  · unfold is_due is_today_or_past
    cases hr : resolvePair today s with
    | error e => rfl
    | ok p =>
      obtain ⟨cd, nd⟩ := p
      exact pyGe_swap nd cd
  · unfold is_due is_today_or_future
    cases hr : resolvePair today s with
    | error e => rfl
    | ok p =>
      obtain ⟨cd, nd⟩ := p
      exact pyLe_swap nd cd
  · unfold is_due is_today
    cases hr : resolvePair today s with
    | error e => rfl
    | ok p =>
      obtain ⟨cd, nd⟩ := p
      exact pyNe_eq_not_pyEq nd cd

/-- C10: a falsy operator argument (the empty string, or an absent /
`None` argument) is replaced by the default `"=="` before the operator
table lookup, so `is_due(d, "")` and `is_due(d)` both return exactly
the result of `is_today(d)` instead of failing with an
unknown-operator error. -/
theorem falsy_operator_defaults_to_eq (today : DateTime) (s : String) :
    is_due today s (some ("")) = is_today today s ∧
      is_due today s none = is_today today s :=
  ⟨is_due_resolveOp_eq today s (some ("")) rfl,
   is_due_resolveOp_eq today s none rfl⟩

/-- C7: whenever `get_dates` returns a populated dict, `now_date` and
`check_date` have the same variant: both calendar dates, or both
timestamps with their sub-second fraction zeroed. -/
theorem resolved_pair_same_variant (today : DateTime) (s : String)
    (n c : TemporalValue) (h : get_dates today s = .ok (some (n, c))) :
    (∃ a b, n = TemporalValue.d a ∧ c = TemporalValue.d b) ∨
      (∃ a b, n = TemporalValue.dt a ∧ c = TemporalValue.dt b ∧
        a.microsecond = 0 ∧ b.microsecond = 0) := by
  rcases get_datesL_shape today s.toList n c h with ⟨hn, x, hc⟩ | ⟨hn, x, hc, hx⟩
  · exact Or.inl ⟨today.date, x, hn, hc⟩
  · exact Or.inr ⟨today.truncMicro, x, hn, hc, rfl, hx⟩

/-- C7 witness: the timestamp input 1970-01-01T01:01:01 at the sample
instant resolves to a pair of timestamp-variant values with zeroed
microseconds. -/
theorem resolved_pair_same_variant_witness :
    (∃ a b, TemporalValue.dt sampleNow.truncMicro = TemporalValue.d a ∧
        TemporalValue.dt ⟨1970, 1, 1, 1, 1, 1, 0⟩ = TemporalValue.d b) ∨
      (∃ a b, TemporalValue.dt sampleNow.truncMicro = TemporalValue.dt a ∧
        TemporalValue.dt ⟨1970, 1, 1, 1, 1, 1, 0⟩ = TemporalValue.dt b ∧
        a.microsecond = 0 ∧ b.microsecond = 0) :=
  resolved_pair_same_variant sampleNow ("1970-01-01T01:01:01")
    (TemporalValue.dt sampleNow.truncMicro)
    (TemporalValue.dt ⟨1970, 1, 1, 1, 1, 1, 0⟩) (by decide)

/-- C5: for a valid date-only string parsing to the calendar date `c`,
`is_past` holds exactly when `c` is before the current date, `is_today`
exactly when `c` equals it, `is_future` exactly when `c` is after it,
and exactly one of the three predicates returns true. -/
theorem date_only_trichotomy (today : DateTime) (s : String) (c : Date)
    (h : parseYmd s.toList = some c) :
    (is_past today s = .ok true ↔ dateCmp c today.date = .lt) ∧
    (is_today today s = .ok true ↔ c = today.date) ∧
    (is_future today s = .ok true ↔ dateCmp c today.date = .gt) ∧
    ((is_past today s = .ok true ∧ ¬is_today today s = .ok true ∧
        ¬is_future today s = .ok true) ∨
      (¬is_past today s = .ok true ∧ is_today today s = .ok true ∧
        ¬is_future today s = .ok true) ∨
      (¬is_past today s = .ok true ∧ ¬is_today today s = .ok true ∧
        is_future today s = .ok true)) := by
  have hres := resolvePair_of_parseYmd today s c h
  have hp : is_past today s = .ok (dateCmp c today.date == .lt) := by
    unfold is_past
    rw [hres]
    rfl
  have ht : is_today today s = .ok (dateCmp c today.date == .eq) := by
    unfold is_today
    rw [hres]
    rfl
  have hf : is_future today s = .ok (dateCmp c today.date == .gt) := by
    unfold is_future
    rw [hres]
    rfl
  rw [hp, ht, hf]
  cases ho : dateCmp c today.date <;> simp [ho, ← dateCmp_eq_eq] <;> decide

/-- C5 witness: with the clock at 2030-06-15, the input 2030-06-14
satisfies `is_past` and indeed compares as earlier. -/
theorem date_only_trichotomy_witness :
    parseYmd (String.toList ("2030-06-14")) = some ⟨2030, 6, 14⟩ ∧
      (is_past sampleNow ("2030-06-14") = .ok true ↔
        dateCmp ⟨2030, 6, 14⟩ sampleNow.date = .lt) :=
  ⟨by decide,
   (date_only_trichotomy sampleNow ("2030-06-14") ⟨2030, 6, 14⟩ (by decide)).1⟩

/-- C6: on any input whose resolution produces a populated dict,
`is_today_or_past` returns the disjunction of `is_past` and `is_today`,
and `is_today_or_future` returns the disjunction of `is_future` and
`is_today`. -/
theorem or_predicates_decompose (today : DateTime) (s : String)
    (pr : TemporalValue × TemporalValue)
    (h : get_dates today s = .ok (some pr)) :
    ∃ p t f, is_past today s = .ok p ∧ is_today today s = .ok t ∧
      is_future today s = .ok f ∧
      is_today_or_past today s = .ok (p || t) ∧
      is_today_or_future today s = .ok (f || t) := by
  obtain ⟨n, c⟩ := pr
  obtain ⟨⟨o, ho⟩, _⟩ := get_dates_cmp_defined today s n c h
  have hres := resolvePair_of_pair today s n c h
  refine ⟨o == .lt, o == .eq, o == .gt, ?_, ?_, ?_, ?_, ?_⟩
  · unfold is_past
    rw [hres]
    show pyLt c n = _
    unfold pyLt
    rw [ho]
  · unfold is_today
    rw [hres]
    show pyEq c n = _
    unfold pyEq
    rw [ho]
  · unfold is_future
    rw [hres]
    show pyGt c n = _
    unfold pyGt
    rw [ho]

  · unfold is_today_or_past
    rw [hres]
    show pyLe c n = _
    unfold pyLe
    rw [ho]
    cases o <;> rfl
  · unfold is_today_or_future
    rw [hres]
    show pyGe c n = _
    unfold pyGe
    rw [ho]
    cases o <;> rfl

/-- C6 witness: instantiated at the sample instant on the valid input
2030-06-15. -/
theorem or_predicates_decompose_witness :
    ∃ p t f, is_past sampleNow ("2030-06-15") = .ok p ∧
      is_today sampleNow ("2030-06-15") = .ok t ∧
      is_future sampleNow ("2030-06-15") = .ok f ∧
      is_today_or_past sampleNow ("2030-06-15") = .ok (p || t) ∧
      is_today_or_future sampleNow ("2030-06-15") = .ok (f || t) :=
  or_predicates_decompose sampleNow ("2030-06-15")
    (TemporalValue.d ⟨2030, 6, 15⟩, TemporalValue.d ⟨2030, 6, 15⟩) (by decide)

/-- C2 counterexample: on the unmatched input 15/06/2030 every
predicate fails with the generic missing-key error
`KeyError("check_date")` from the empty dict, not with a dedicated
invalid-date-format error (no such error exists in the code). -/
theorem unmatched_input_missing_key_cex :
    is_past sampleNow ("15/06/2030") = .error (.keyError ("check_date")) ∧
    is_today_or_past sampleNow ("15/06/2030") = .error (.keyError ("check_date")) ∧
    is_future sampleNow ("15/06/2030") = .error (.keyError ("check_date")) ∧
    is_today_or_future sampleNow ("15/06/2030") = .error (.keyError ("check_date")) ∧
    is_today sampleNow ("15/06/2030") = .error (.keyError ("check_date")) ∧
    is_due sampleNow ("15/06/2030") (some ("==")) = .error (.keyError ("check_date")) ∧
    is_due sampleNow ("15/06/2030") (some ("~=")) = .error (.keyError ("check_date")) := by
  refine ⟨?_, ?_, ?_, ?_, ?_, ?_, ?_⟩ <;> decide

/-- C2 (amended): for every input string that matches none of the
three recognized patterns, every one of the predicates (the five named
ones, and `is_due` under every operator argument) fails with the
missing-key error `KeyError("check_date")` rather than returning a
boolean or silently defaulting to false. -/
theorem unmatched_input_all_predicates_keyerror (today : DateTime) (s : String)
    (h1 : matchToks pat1 s.toList = false)
    (h2 : matchToks (patTS 'T') s.toList = false)
    (h3 : matchToks (patTS ' ') s.toList = false) :
    is_past today s = .error (.keyError ("check_date")) ∧
    is_today_or_past today s = .error (.keyError ("check_date")) ∧
    is_future today s = .error (.keyError ("check_date")) ∧
    is_today_or_future today s = .error (.keyError ("check_date")) ∧
    is_today today s = .error (.keyError ("check_date")) ∧
    ∀ op : Option String, is_due today s op = .error (.keyError ("check_date")) := by
  have hres : resolvePair today s = .error (.keyError ("check_date")) :=
    resolvePair_of_empty today s (get_datesL_of_unmatched today s.toList h1 h2 h3)
  refine ⟨?_, ?_, ?_, ?_, ?_, fun op => ?_⟩
  · unfold is_past
    rw [hres]
  · unfold is_today_or_past
    rw [hres]
  · unfold is_future
    rw [hres]
  · unfold is_today_or_future
    rw [hres]
  · unfold is_today
    rw [hres]
  · unfold is_due
    rw [hres]

/-- C2 witness: the amended statement applied to the concrete
unmatched input 15/06/2030 at the sample instant. -/
theorem unmatched_input_all_predicates_keyerror_witness :
    is_past sampleNow ("15/06/2030") = .error (.keyError ("check_date")) ∧
      is_due sampleNow ("15/06/2030") (some ("~=")) =
        .error (.keyError ("check_date")) := by
  have h := unmatched_input_all_predicates_keyerror sampleNow ("15/06/2030")
    (by decide) (by decide) (by decide)
  exact ⟨h.1, h.2.2.2.2.2 (some ("~="))⟩

/-- C3 counterexample: the empty operator string is not one of the six
recognized symbols, yet `is_due` with it does not fail: it falls back
to `"=="` and returns a boolean. -/
theorem empty_operator_not_rejected_cex :
    ("" ∉ (["==", ">", ">=", "<=", "<", "!="] : List String)) ∧
      is_due sampleNow ("2030-06-15") (some ("")) = .ok true := by
  constructor <;> decide

/-- C3 (amended): for a valid date string and a non-empty operator
string outside the six recognized symbols, `is_due` fails with the
operator-table lookup error `KeyError(op)` (the unknown-operator
failure); for each of the six recognized symbols it returns a boolean.
The empty string is the one non-recognized operator that does not
fail: it is falsy and is replaced by the default `"=="`. -/
theorem is_due_operator_validation (today : DateTime) (s : String)
    (pr : TemporalValue × TemporalValue)
    (h : get_dates today s = .ok (some pr)) (op : String) :
    (op ≠ "" → op ∉ (["==", ">", ">=", "<=", "<", "!="] : List String) →
      is_due today s (some op) = .error (.keyError op)) ∧
    (op ∈ (["==", ">", ">=", "<=", "<", "!="] : List String) →
      ∃ b, is_due today s (some op) = .ok b) := by
  obtain ⟨n, c⟩ := pr
  obtain ⟨_, o, ho⟩ := get_dates_cmp_defined today s n c h
  have hres := resolvePair_of_pair today s n c h
  constructor
  · intro hne hmem
    simp only [List.mem_cons, List.not_mem_nil, or_false, not_or] at hmem
    obtain ⟨ne1, ne2, ne3, ne4, ne5, ne6⟩ := hmem
    have e0 : (op == "") = false := beq_eq_false_iff_ne.mpr hne
    have e1 : (op == "==") = false := beq_eq_false_iff_ne.mpr ne1
    have e2 : (op == ">") = false := beq_eq_false_iff_ne.mpr ne2
    have e3 : (op == ">=") = false := beq_eq_false_iff_ne.mpr ne3
    have e4 : (op == "<=") = false := beq_eq_false_iff_ne.mpr ne4
    have e5 : (op == "<") = false := beq_eq_false_iff_ne.mpr ne5
    have e6 : (op == "!=") = false := beq_eq_false_iff_ne.mpr ne6
    unfold is_due
    rw [hres]
    show applyOp (resolveOp (some op)) n c = _
    simp only [resolveOp, applyOp, e0, e1, e2, e3, e4, e5, e6,
      Bool.false_eq_true, if_false]
  · intro hmem
    simp only [List.mem_cons, List.not_mem_nil, or_false] at hmem
    have hdue : is_due today s (some op) = applyOp (resolveOp (some op)) n c := by
      unfold is_due
      rw [hres]
    rcases hmem with rfl | rfl | rfl | rfl | rfl | rfl
    · refine ⟨o == .eq, ?_⟩
      rw [hdue]
      show pyEq n c = _
      unfold pyEq
      rw [ho]
    · refine ⟨o == .gt, ?_⟩
      rw [hdue]
      show pyGt n c = _
      unfold pyGt
      rw [ho]
    · refine ⟨!(o == .lt), ?_⟩
      rw [hdue]
      show pyGe n c = _
      unfold pyGe
      rw [ho]
    · refine ⟨!(o == .gt), ?_⟩
      rw [hdue]
      show pyLe n c = _
      unfold pyLe
      rw [ho]
    · refine ⟨o == .lt, ?_⟩
      rw [hdue]
      show pyLt n c = _
      unfold pyLt
      rw [ho]
    · refine ⟨!(o == .eq), ?_⟩
      rw [hdue]
      show pyNe n c = _
      unfold pyNe
      rw [ho]

/-- C3 witness: at the sample instant on the valid input 2030-06-15,
the unrecognized operator `~=` fails with its lookup error and the
recognized operator `<=` returns a boolean. -/
theorem is_due_operator_validation_witness :
    is_due sampleNow ("2030-06-15") (some ("~=")) = .error (.keyError ("~=")) ∧
      ∃ b, is_due sampleNow ("2030-06-15") (some ("<=")) = .ok b :=
  ⟨(is_due_operator_validation sampleNow ("2030-06-15")
      (TemporalValue.d ⟨2030, 6, 15⟩, TemporalValue.d ⟨2030, 6, 15⟩)
      (by decide) "~=").1 (by decide) (by decide),
   (is_due_operator_validation sampleNow ("2030-06-15")
      (TemporalValue.d ⟨2030, 6, 15⟩, TemporalValue.d ⟨2030, 6, 15⟩)
      (by decide) "<=").2 (by decide)⟩

/-- C4 counterexample: the input 1970-99-99 matches the date-only
pattern, yet resolution does not yield a now/check pair: `strptime`
rejects it and the call fails with a `ValueError`. -/
theorem pattern_match_invalid_date_cex :
    matchToks pat1 (String.toList ("1970-99-99")) = true ∧
      get_dates sampleNow ("1970-99-99") = .error .valueError := by
  constructor <;> decide

/-- C4 (amended): for every input the parser accepts, resolution has
the claimed shape: a string parsing under the date-only format yields
`now` = the current local calendar date and `check` = the parsed date;
a string parsing under either timestamp format (T or space separator)
yields `now` = the current local date+time with microseconds zeroed
and `check` = the parsed date+time.  Pattern-matching strings whose
fields do not form a valid date or time are rejected by `strptime`
instead of yielding a pair. -/
theorem resolution_variant_shapes (today : DateTime) (s : String) :
    (∀ c, parseYmd s.toList = some c →
      get_dates today s = .ok (some (.d today.date, .d c))) ∧
    (∀ t, parseYmdHMS 'T' s.toList = some t →
      get_dates today s = .ok (some (.dt today.truncMicro, .dt t))) ∧
    (∀ t, parseYmdHMS ' ' s.toList = some t →
      get_dates today s = .ok (some (.dt today.truncMicro, .dt t))) :=
  ⟨fun c hc => get_datesL_of_parseYmd today s.toList c hc,
   fun t ht => get_datesL_of_parseT today s.toList t ht,
   fun t ht => get_datesL_of_parseSp today s.toList t ht⟩

/-- C4 witness: the valid date-only input 1970-01-01 resolves to the
sample instant's calendar date paired with the parsed date. -/
theorem resolution_variant_shapes_witness :
    get_dates sampleNow ("1970-01-01") =
      .ok (some (.d sampleNow.date, .d ⟨1970, 1, 1⟩)) :=
  (resolution_variant_shapes sampleNow ("1970-01-01")).1 ⟨1970, 1, 1⟩ (by decide)

/-- Helper for C8: `get_datesL` gives identical results on any
19-character input of timestamp shape whether the separator slot holds
`T` or a space, whatever the other characters are. -/
theorem get_datesL_sep (today : DateTime)
    (y1 y2 y3 y4 m1 m2 d1 d2 h1 h2 n1 n2 s1 s2 : Char) :
    get_datesL today
        [y1, y2, y3, y4, '-', m1, m2, '-', d1, d2, 'T', h1, h2, ':', n1, n2, ':', s1, s2] =
      get_datesL today
        [y1, y2, y3, y4, '-', m1, m2, '-', d1, d2, ' ', h1, h2, ':', n1, n2, ':', s1, s2] := by
  have e1 : matchToks pat1
      [y1, y2, y3, y4, '-', m1, m2, '-', d1, d2, 'T', h1, h2, ':', n1, n2, ':', s1, s2] =
      false := by
    simp [matchToks, pat1, endOk]
  have e2 : matchToks pat1
      [y1, y2, y3, y4, '-', m1, m2, '-', d1, d2, ' ', h1, h2, ':', n1, n2, ':', s1, s2] =
      false := by
    simp [matchToks, pat1, endOk]
  have e3 : matchToks (patTS ' ')
      [y1, y2, y3, y4, '-', m1, m2, '-', d1, d2, 'T', h1, h2, ':', n1, n2, ':', s1, s2] =
      false := by
    simp [matchToks, patTS, endOk, show (('T' : Char) == ' ') = false by decide]
  have e4 : matchToks (patTS 'T')
      [y1, y2, y3, y4, '-', m1, m2, '-', d1, d2, ' ', h1, h2, ':', n1, n2, ':', s1, s2] =
      false := by
    simp [matchToks, patTS, endOk, show ((' ' : Char) == 'T') = false by decide]
  have e5 : matchToks (patTS 'T')
      [y1, y2, y3, y4, '-', m1, m2, '-', d1, d2, 'T', h1, h2, ':', n1, n2, ':', s1, s2] =
      matchToks (patTS ' ')
      [y1, y2, y3, y4, '-', m1, m2, '-', d1, d2, ' ', h1, h2, ':', n1, n2, ':', s1, s2] := by
    simp [matchToks, patTS, endOk]
  have e6 : parseYmdHMS 'T'
      [y1, y2, y3, y4, '-', m1, m2, '-', d1, d2, 'T', h1, h2, ':', n1, n2, ':', s1, s2] =
      parseYmdHMS ' '
      [y1, y2, y3, y4, '-', m1, m2, '-', d1, d2, ' ', h1, h2, ':', n1, n2, ':', s1, s2] := by
    simp [parseYmdHMS]
  unfold get_datesL
  rw [e1, e2, e3, e4, e5, e6]
  simp only [Bool.false_eq_true, if_false]
  cases hb : matchToks (patTS ' ')
      [y1, y2, y3, y4, '-', m1, m2, '-', d1, d2, ' ', h1, h2, ':', n1, n2, ':', s1, s2] with
  | false => simp [hb]
  | true =>
    cases hp : parseYmdHMS ' '
        [y1, y2, y3, y4, '-', m1, m2, '-', d1, d2, ' ', h1, h2, ':', n1, n2, ':', s1, s2] with
    | none => simp [hb, hp]
    | some t => simp [hb, hp]

/-- C8: the T-separated and space-separated renderings of one date and
time resolve identically; in particular the two literal inputs
1970-01-01T01:01:01 and 1970-01-01 01:01:01 produce the identical
check value. -/
theorem t_and_space_separators_agree :
    (∀ today : DateTime,
      get_dates today ("1970-01-01T01:01:01") =
        get_dates today ("1970-01-01 01:01:01")) ∧
    (∀ (today : DateTime) (y1 y2 y3 y4 m1 m2 d1 d2 h1 h2 n1 n2 s1 s2 : Char),
      get_datesL today
          [y1, y2, y3, y4, '-', m1, m2, '-', d1, d2, 'T', h1, h2, ':', n1, n2, ':', s1, s2] =
        get_datesL today
          [y1, y2, y3, y4, '-', m1, m2, '-', d1, d2, ' ', h1, h2, ':', n1, n2, ':', s1, s2]) := by
  constructor
  · intro today
    show get_datesL today
        ['1', '9', '7', '0', '-', '0', '1', '-', '0', '1', 'T', '0', '1', ':', '0', '1', ':', '0', '1'] =
      get_datesL today
        ['1', '9', '7', '0', '-', '0', '1', '-', '0', '1', ' ', '0', '1', ':', '0', '1', ':', '0', '1']
    exact get_datesL_sep today '1' '9' '7' '0' '0' '1' '0' '1' '0' '1' '0' '1' '0' '1'
  · intro today y1 y2 y3 y4 m1 m2 d1 d2 h1 h2 n1 n2 s1 s2
    exact get_datesL_sep today y1 y2 y3 y4 m1 m2 d1 d2 h1 h2 n1 n2 s1 s2

/-- C9 counterexample: the registration table has exactly six entries,
not seven as the claim counts. -/
theorem filters_table_count_cex : filters.length = 6 ∧ filters.length ≠ 7 := by
  constructor <;> decide

/-- C9 (amended): the registration table maps exactly the six names
is_due, is_future, is_past, is_today_or_future, is_today_or_past and
is_today to the same-named predicates, with no other entries. -/
theorem filters_table_entries :
    filters.lookup ("is_due") = some (.withOp fun t s op => is_due t s op) ∧
    filters.lookup ("is_future") = some (.unary is_future) ∧
    filters.lookup ("is_past") = some (.unary is_past) ∧
    filters.lookup ("is_today_or_future") = some (.unary is_today_or_future) ∧
    filters.lookup ("is_today_or_past") = some (.unary is_today_or_past) ∧
    filters.lookup ("is_today") = some (.unary is_today) ∧
    filters.map Prod.fst =
      [("is_due" : String), "is_future", "is_past", "is_today_or_future",
        "is_today_or_past", "is_today"] ∧
    filters.length = 6 :=
  ⟨rfl, rfl, rfl, rfl, rfl, rfl, rfl, rfl⟩

end ScheduleUtils
